import Mathlib

/-!
Verification of the syllabus-to-notes core of Syllabus_GPT
(`backend/src/services/notes_llm.py`, `backend/src/services/rag_llm.py`,
`backend/src/services/hyde_llm.py`).

The Python code is shallowly embedded: pure text transformations become Lean
functions on `String` / `List Char`; the two external collaborators (the Groq
chat-completion client and the ChromaDB context retriever) become function
parameters, with a raised exception modelled as `Except.error`.  Regular
expressions are embedded as explicit character scanners that reproduce the
leftmost, greedy matching Python's `re` performs on these particular patterns
(the patterns contain no constructs requiring backtracking: every character
class involved is disjoint from the class that follows it).  The whitespace
class `\s` is modelled by its ASCII part, which is the relevant one for
syllabus text.  Recursions that consume a dynamic number of characters per
step are written with an explicit fuel argument (initialised to the text
length) so that every definition computes by kernel reduction.
-/

/-- ASCII part of Python's `\s` / `str.strip()` whitespace class. -/
def isPySpace (c : Char) : Bool :=
  c = ' ' || c = '\t' || c = '\n' || c = '\r' || c = '\x0b' || c = '\x0c'

/-- Python `str.strip()` on a character list: drop whitespace at both ends. -/
def pyStripL (l : List Char) : List Char :=
  ((l.dropWhile isPySpace).reverse.dropWhile isPySpace).reverse

/-- Python `str.strip()` on a `String`. -/
def pyStrip (s : String) : String :=
  ⟨pyStripL s.data⟩

/-- Python `str.strip(chars)`: drop characters of `set` at both ends. -/
def pyStripChars (set : List Char) (l : List Char) : List Char :=
  ((l.dropWhile (· ∈ set)).reverse.dropWhile (· ∈ set)).reverse

/-! ### The unit-heading pattern `(?i)(UNIT[\s\-]*(?:[IVX]+|\d+))[:\s]*`
(`split_syllabus_into_units`, notes_llm.py line 35). -/

/-- `(?i)[IVX]`: roman-numeral characters, case-insensitive. -/
def isRomanChar (c : Char) : Bool :=
  c = 'I' || c = 'V' || c = 'X' || c = 'i' || c = 'v' || c = 'x'

/-- `\d`: ASCII decimal digit. -/
def isDigitChar (c : Char) : Bool :=
  '0' ≤ c && c ≤ '9'

/-- `[\s\-]`: separator between `UNIT` and the numeral. -/
def isSepChar (c : Char) : Bool :=
  isPySpace c || c = '-'

/-- `[:\s]`: characters consumed after the captured group. -/
def isTrailChar (c : Char) : Bool :=
  c = ':' || isPySpace c

/-- Case-insensitive literal `UNIT` at the head of the list; returns the four
matched characters (in original case) and the remainder. -/
def matchUnitWord : List Char → Option (List Char × List Char)
  | c0 :: c1 :: c2 :: c3 :: rest =>
    if (c0 = 'U' || c0 = 'u') && (c1 = 'N' || c1 = 'n')
        && (c2 = 'I' || c2 = 'i') && (c3 = 'T' || c3 = 't')
    then some ([c0, c1, c2, c3], rest)
    else none
  | _ => none

/-- Match the whole heading pattern at the head of the list.  On success
returns the captured group `UNIT[\s\-]*(?:[IVX]+|\d+)` and the remainder
after greedily consuming the uncaptured `[:\s]*` tail.  All three starred
classes are greedy; no backtracking can occur because a separator character
is never a roman/digit character and nothing follows the final star. -/
def matchHeading (cs : List Char) : Option (List Char × List Char) :=
  match matchUnitWord cs with
  | none => none
  | some (u, rest) =>
    let seps := rest.takeWhile isSepChar
    let rest1 := rest.dropWhile isSepChar
    let rom := rest1.takeWhile isRomanChar
    if rom.isEmpty then
      let digs := rest1.takeWhile isDigitChar
      if digs.isEmpty then none
      else some (u ++ seps ++ digs, (rest1.dropWhile isDigitChar).dropWhile isTrailChar)
    else some (u ++ seps ++ rom, (rest1.dropWhile isRomanChar).dropWhile isTrailChar)

/-- `re.split` with the heading pattern, fuelled.  Returns the text before the
first match and the list of (captured heading, following text) pairs — i.e.
Python's `parts` list `[pre, g1, t1, g2, t2, …]` as `(pre, [(g1,t1),…])`.
The scan is leftmost: a match is attempted at every position in turn and the
scan resumes after the end of each match. -/
def reSplitUnitsF : Nat → List Char → List Char × List (List Char × List Char)
  | 0, _ => ([], [])
  | _, [] => ([], [])
  | fuel + 1, c :: rest =>
    match matchHeading (c :: rest) with
    | some (g, after) =>
      let r := reSplitUnitsF fuel after
      ([], (g, r.1) :: r.2)
    | none =>
      let r := reSplitUnitsF fuel rest
      (c :: r.1, r.2)

/-- `re.split(pattern, text)` for the heading pattern (adequate fuel). -/
def reSplitUnits (cs : List Char) : List Char × List (List Char × List Char) :=
  reSplitUnitsF cs.length cs

/-- A syllabus unit: Python dict `{"unit_title": …, "unit_text": …}`. -/
structure SyllabusUnit where
  unit_title : String
  unit_text : String
deriving Repr, DecidableEq

/-- notes_llm.py line 33: `syllabus_text.replace("\r", " ").strip()`. -/
def normalizeSyllabus (s : String) : List Char :=
  pyStripL (s.data.map (fun c => if c = '\r' then ' ' else c))

/-- The `for i in range(start_index, len(parts) - 1, 2)` loop of
`split_syllabus_into_units` (lines 49–53): consume the parts list two at a
time; the first of each pair is stripped and has its colons removed to form
the title, the second is stripped to form the body; units with empty bodies
are dropped. -/
def unitsLoop : List (List Char) → List SyllabusUnit
  | t :: b :: rest =>
    let title : List Char := (pyStripL t).filter (fun c => !(c = ':'))
    let body : List Char := pyStripL b
    if body.isEmpty then unitsLoop rest
    else ⟨⟨title⟩, ⟨body⟩⟩ :: unitsLoop rest
  | _ => []

/-- notes_llm.py lines 28–55, `split_syllabus_into_units`. -/
def split_syllabus_into_units (syllabus_text : String) : List SyllabusUnit :=
  let text := normalizeSyllabus syllabus_text
  let pp := reSplitUnits text
  -- `len(parts) < 2` iff no heading matched (parts = [pre, g1, t1, …])
  if pp.2.isEmpty then
    [⟨"UNIT-I", ⟨text⟩⟩]
  else
    let parts : List (List Char) := pp.1 :: pp.2.foldr (fun p acc => p.1 :: p.2 :: acc) []
    -- `start_index = 1 if parts[0].strip() == "" else 0`
    let rest := if (pyStripL pp.1).isEmpty then parts.drop 1 else parts
    unitsLoop rest

example : split_syllabus_into_units "UNIT-1: Intro\nBasics. UNIT-2: Advanced\nDeep dive."
    = [⟨"UNIT-1", "Intro\nBasics."⟩, ⟨"UNIT-2", "Advanced\nDeep dive."⟩] := by decide

example : split_syllabus_into_units "Just plain text, no headings."
    = [⟨"UNIT-I", "Just plain text, no headings."⟩] := by decide

example : split_syllabus_into_units "UNIT-1" = [] := by decide

example : split_syllabus_into_units "Preface UNIT-1: Basics" = [⟨"Preface", "UNIT-1"⟩] := by decide

example : split_syllabus_into_units "" = [⟨"UNIT-I", ""⟩] := by decide

example : split_syllabus_into_units "unit iv:  Trees  " = [⟨"unit iv", "Trees"⟩] := by decide

/-! ### `extract_subtopics` (notes_llm.py lines 58–68). -/

/-- `re.sub(r"\s+", " ", text)`: collapse each maximal whitespace run to a
single space (fuelled; the fuel bounds the number of characters consumed). -/
def collapseWSF : Nat → List Char → List Char
  | 0, _ => []
  | _, [] => []
  | fuel + 1, c :: rest =>
    if isPySpace c then ' ' :: collapseWSF fuel (rest.dropWhile isPySpace)
    else c :: collapseWSF fuel rest

/-- `re.sub(r"\s+", " ", text)` with adequate fuel. -/
def collapseWS (cs : List Char) : List Char :=
  collapseWSF cs.length cs

/-- Match the delimiter pattern `[.,;]|\sand\s|\sor\s|\n` at the head of the
list; on success returns the remainder after the consumed delimiter.  The
alternatives are tried in the pattern's order (`[.,;]`, then `\sand\s`, then
`\sor\s`, then `\n`). -/
def matchDelim : List Char → Option (List Char)
  | [] => none
  | c :: rest =>
    if c = '.' || c = ',' || c = ';' then some rest
    else if isPySpace c then
      match rest with
      | 'a' :: 'n' :: 'd' :: w :: tail =>
        if isPySpace w then some tail
        else if c = '\n' then some rest else none
      | 'o' :: 'r' :: w :: tail =>
        if isPySpace w then some tail
        else if c = '\n' then some rest else none
      | _ => if c = '\n' then some rest else none
    else none

/-- `re.split(r"[.,;]|\sand\s|\sor\s|\n", text)`: the pieces of the text
between (non-overlapping, leftmost) delimiter matches.  `acc` is the current
piece, reversed. -/
def splitDelimsF : Nat → List Char → List Char → List (List Char)
  | 0, _, acc => [acc.reverse]
  | _, [], acc => [acc.reverse]
  | fuel + 1, c :: rest, acc =>
    match matchDelim (c :: rest) with
    | some rem => acc.reverse :: splitDelimsF fuel rem []
    | none => splitDelimsF fuel rest (c :: acc)

/-- `re.split(r"[.,;]|\sand\s|\sor\s|\n", text)` with adequate fuel. -/
def splitDelims (cs : List Char) : List (List Char) :=
  splitDelimsF cs.length cs []

/-- The character set of `p.strip(" -–—:•")` (notes_llm.py line 67). -/
def bulletTrimChars : List Char := [' ', '-', '–', '—', ':', '•']

/-- notes_llm.py lines 58–68, `extract_subtopics`.  Python's final
`list(set(subtopics))` has an unspecified (hash-dependent) order; it is
modelled by `List.dedup`, which also keeps exactly one copy of each element.
No claim depends on the order of the result. -/
def extract_subtopics (unit_text : String) : List String :=
  let text := collapseWS unit_text.data
  let raw_parts := splitDelims text
  let subtopics : List String :=
    (raw_parts.filter (fun p => 3 < (pyStripL p).length)).map
      (fun p => ⟨pyStripChars bulletTrimChars p⟩)
  subtopics.dedup

example : extract_subtopics "---a----" = ["a"] := by decide
example : extract_subtopics "Stacks, queues; trees and graphs or heaps" =
    ["Stacks", "queues", "trees", "graphs", "heaps"] := by decide
example : extract_subtopics "abcd. abcd. abcd" = ["abcd"] := by decide
example : extract_subtopics "abc. ab. a" = [] := by decide

/-! ### `_truncate_context` (notes_llm.py lines 71–77). -/

/-- The literal truncation marker appended by `_truncate_context`. -/
def truncation_marker : String := "\n\n...[context truncated]..."

/-- notes_llm.py lines 71–77, `_truncate_context` (Python default
`max_chars=6000`; both call sites pass 5000 explicitly). -/
def truncate_context (text : String) (max_chars : Nat) : String :=
  if text.length ≤ max_chars then text
  else text.take max_chars ++ truncation_marker

example : truncate_context "abcdef" 3 = "abc" ++ truncation_marker := by decide
example : truncate_context "abc" 6000 = "abc" := by decide

/-! ### External collaborators.

The Groq chat-completion client is a function from a (system prompt, user
prompt) pair to either generated text or a raised exception's message
(`Except.error`).  Fixed configuration passed alongside the prompts (model
name, temperature, max_tokens) does not influence any control flow in this
code and is abstracted away.  The ChromaDB retriever
(`retrieve_relevant_context`, not part of this excerpt) is a total function
from its four arguments to a text block; an empty block is a valid "nothing
found" answer.  Invocations of the retriever are recorded as `RetrievalCall`
values so that theorems can speak about how often and with which arguments
it is queried. -/

/-- A chat completion call: system prompt, user prompt → text or exception. -/
def ChatClient : Type := String → String → Except String String

/-- One invocation of `retrieve_relevant_context`, with its keyword
arguments `syllabus_text`, `subject`, `use_pyq`, `top_k`. -/
structure RetrievalCall where
  syllabus_text : String
  subject : Option String
  use_pyq : Bool
  top_k : Nat
deriving Repr, DecidableEq

/-- The context retriever collaborator. -/
def Retriever : Type := RetrievalCall → String

/-! ### `generate_hyde_document` (hyde_llm.py lines 18–51). -/

/-- hyde_llm.py lines 25–29 (Python adjacent string literals concatenate). -/
def hyde_system_prompt : String :=
  "You are an academic assistant. Given a topic, generate a short hypothetical explanation as if from a textbook. Keep it factual, structured, and instructional."

/-- hyde_llm.py lines 31–39. -/
def hyde_user_prompt (topic : String) : String :=
  "\nGenerate a hypothetical academic explanation for the topic:\n\nTOPIC:\n"
    ++ topic
    ++ "\n\nWrite 1–2 paragraphs that resemble real study material.\nDo NOT mention that this is hypothetical.\n"

/-- hyde_llm.py lines 18–51, `generate_hyde_document`: one completion call,
with no exception handling — a raised exception propagates to the caller. -/
def generate_hyde_document (chat : ChatClient) (topic : String) : Except String String :=
  chat hyde_system_prompt (hyde_user_prompt topic)

/-! ### `generate_notes` and `generate_notes_with_rag` (rag_llm.py). -/

/-- rag_llm.py lines 46–49. -/
def rag_system_prompt : String :=
  "You are an expert engineering mentor. You generate exam-focused, clear and well-structured notes for university students."

/-- rag_llm.py lines 51–73. -/
def rag_user_prompt (topic context : String) : String :=
  "\nGenerate detailed, exam-ready study notes for the topic:\n\nTOPIC:\n"
    ++ topic
    ++ "\n\nUSING ONLY the following context (books, notes, PYQs):\n\nCONTEXT:\n"
    ++ context
    ++ "\n\nRequirements:\n- Write in simple, clear English.\n- Structure the notes with headings and bullet points.\n- Include:\n    1. Short introduction\n    2. Explanation of concepts\n    3. Important formulas / definitions (if any)\n    4. Examples or explanations for common questions\n    5. Key points / summary\n- Focus on what is important for university exams.\n- Do NOT mention that you used context.\n"

/-- rag_llm.py lines 39–75, `generate_notes`. -/
def generate_notes (chat : ChatClient) (topic : String) (context_chunks : List String) :
    Except String String :=
  let context := String.intercalate "\n\n" context_chunks
  chat rag_system_prompt (rag_user_prompt topic context)

/-- The fallback chunk of rag_llm.py line 106. -/
def no_context_chunk : String := "No context found in KB, answer from general knowledge."

/-- rag_llm.py lines 78–114, `generate_notes_with_rag`: HyDE, one retrieval,
then generation — with the general-knowledge fallback when the retrieved
context is empty or whitespace-only (`if not combined_context.strip()`). -/
def generate_notes_with_rag (chat : ChatClient) (retrieve : Retriever)
    (syllabus_text : String) (subject : Option String)
    (use_pyq : Bool) (top_k : Nat) : Except String String :=
  match generate_hyde_document chat syllabus_text with
  | .error e => .error e
  | .ok hyde_doc =>
    let combined_context := retrieve ⟨hyde_doc, subject, use_pyq, top_k⟩
    if (pyStrip combined_context).isEmpty then
      generate_notes chat syllabus_text [no_context_chunk]
    else
      generate_notes chat syllabus_text [combined_context]

/-! ### `generate_unit_notes` (notes_llm.py lines 83–319). -/

/-- Python's `x or default` for an optional string: `None` and the empty
string are falsy and yield the default. -/
def pyOrDefault (x : Option String) (d : String) : String :=
  match x with
  | none => d
  | some s => if s = "" then d else s

/-- notes_llm.py line 96, the HyDE seed string. -/
def hyde_seed (unit_title : String) (subject : Option String) (unit_text : String) : String :=
  "Explain the concepts of " ++ unit_title ++ " in " ++ pyOrDefault subject "Data Science"
    ++ ": " ++ unit_text

/-- notes_llm.py lines 124–178, the fixed system prompt of
`generate_unit_notes` (inert template data; the apostrophes of the original
are written `\x27`). -/
def unit_system_prompt : String :=
  "You are an expert academic author and university professor. \n    You create high-quality, comprehensive study notes that look like they come from a premium textbook.\n\n    # **YOUR GOAL:** \n    Convert the provided syllabus into **detailed, structured, and visually scannable notes**.\n\n    ---\n\n    # **FORMATTING RULES:**\n\n    ## **1. Hierarchy & Headers**\n    - **`#` (H1):** Unit titles - use for major divisions\n    - **`##` (H2):** Main topics - primary concepts within the unit\n    - **`###` (H3):** Sub-sections - detailed breakdowns\n    - **`####` (H4):** Supporting details when needed\n"
  ++ "\n    ## **2. Visual Elements**\n    - **MUST include:** ASCII diagrams or Mermaid syntax for all processes\n    - **Example:** `Input → Processing → Output` or flowcharts\n    - **Use:** Boxes, arrows, and visual representations for complex workflows\n\n    ## **3. Mathematical Notation**\n    - **ALL formulas** must use LaTeX formatting\n    - **Example:** `$y = mx + c$`, `$E = mc^2$`\n    - **Display equations:** Use `$$...$$` for centered, standalone formulas\n"
  ++ "\n    ## **4. Tables & Comparisons**\n    - **Use Markdown tables** to compare concepts side-by-side\n    - **Example topics:** Supervised vs Unsupervised, Stack vs Queue\n    - **Format:** Clear headers, aligned columns, concise entries\n\n    ## **5. Emphasis & Readability**\n    - **Bold (`**text**`):** Key terms, definitions, important concepts\n    - **Italic (`*text*`):** Emphasis, variables, first-use terminology\n    - **Blockquotes (`>`):** Formal definitions, important notes\n    - **Lists:** Use for features, steps, characteristics\n"
  ++ "\n    ## **6. Professional Writing**\n    - **NO fluff** or robotic transitions like \"Let\x27s dive into...\"\n    - **Write directly** and professionally\n    - **Focus:** Educational clarity over conversational style\n\n    ---\n\n    # **TONE:** \n    Educational, insightful, and clear—similar to \x27Head First\x27 series or premium university textbooks.\n\n    ---\n\n    # **CONTENT DEPTH:**\n    - **Explanations:** Focus on \"WHY\" and \"HOW,\" not just \"WHAT\"\n    - **Examples:** Real-world applications and specific scenarios\n    - **Visuals:** Minimum 1-2 diagrams per major topic\n    - **Comparisons:** Tables for easily confused concepts\n    "

/-- notes_llm.py lines 180–304, the user prompt of `generate_unit_notes`
with its interpolated dynamic parts. -/
def unit_user_prompt (subject : Option String)
    (unit_title unit_text book_context pyq_context subtopic_list_str : String) : String :=
  "\n    # **CONTEXT:**\n    - **Subject:** " ++ pyOrDefault subject "General"
  ++ "\n    - **Unit:** " ++ unit_title
  ++ "\n    - **Syllabus Topics:** \n    " ++ unit_text
  ++ "\n\n    ---\n\n    # **RETRIEVED KNOWLEDGE BASE (Source Material):**\n    " ++ book_context
  ++ "\n\n    " ++ pyq_context
  ++ "\n\n    ---\n\n    # **TASK:** \n    Write **comprehensive study notes** for **" ++ unit_title
  ++ "**. \n\n    ---\n\n    # **REQUIRED STRUCTURE** (Follow this exactly):\n\n    ---\n\n    # **" ++ unit_title
  ++ "** - [Topic Name]\n\n    > **Unit Overview:** Write a 3-4 sentence summary of what this unit covers and why it matters in the real world.\n\n    ---\n\n    ## **[Topic 1 Name]**\n\n    ### **1. Definition**\n    > [Provide a clear, formal definition in a blockquote]\n\n    ### **2. Conceptual Explanation**\n    [2-3 paragraphs explaining the concept in depth. Explain **\"Why\"** we need it, not just **\"What\"** it is.]\n\n    ### **3. Key Characteristics/Features**\n    - **Feature 1:** [Description]\n    - **Feature 2:** [Description]\n    - **Feature 3:** [Description]\n"
  ++ "\n    ### **4. Process/Workflow** (IF APPLICABLE)\n    [If this is a process/algorithm, describe steps **AND** provide a visual representation]\n\n    **Visual Representation:**\n    ```\n    [Step 1] → [Step 2] → [Decision] → [Outcome]\n    ```\n\n    **Step-by-Step Breakdown:**\n    1. **Step 1:** [Description]\n    2. **Step 2:** [Description]\n    3. **Step 3:** [Description]\n\n    ### **5. Real-World Case Study**\n    **Scenario:** [Create a specific scenario]\n\n    **Application:** [Provide detailed explanation of how the concept applies here]\n\n    **Outcome:** [What problem does it solve?]\n\n    ### **6. Applications**\n    - **Industry 1:** [Specific use case]\n    - **Industry 2:** [Specific use case]\n    - **Industry 3:** [Specific use case]\n\n    ---\n    *(Repeat the structure above for every major topic in the syllabus: " ++ subtopic_list_str
  ++ ")*\n\n    ---\n\n    ## **Key Differences & Comparisons**\n\n    [Create 1-2 comparison tables for confusing topics in this unit]\n\n    ### **Comparison: [Concept A] vs [Concept B]**\n\n    | **Feature** | **Concept A** | **Concept B** |\n    |:-----------|:-------------|:-------------|\n    | **Purpose** | ... | ... |\n    | **Use Case** | ... | ... |\n    | **Advantages** | ... | ... |\n    | **Disadvantages** | ... | ... |\n\n    ---\n\n    ## **Chapter Summary & Revision**\n\n    ### **Key Takeaways:**\n    - **Takeaway 1:** [Concise summary point]\n    - **Takeaway 2:** [Concise summary point]\n    - **Takeaway 3:** [Concise summary point]\n\n    ### **Important Formulae:**\n    - **Formula 1:** $[LaTeX equation]$ - [Brief explanation]\n    - **Formula 2:** $[LaTeX equation]$ - [Brief explanation]\n\n    ### **Must-Remember Points:**\n    - **Point 1**\n    - **Point 2**\n    - **Point 3**\n"
  ++ "\n    ---\n\n    ## **Practice Questions** (Based on Exam Patterns)\n\n    ### **Conceptual Questions:**\n    1. [Question testing understanding of definitions and concepts]\n    2. [Question requiring explanation of relationships]\n\n    ### **Application Questions:**\n    3. [Scenario-based question requiring practical application]\n    4. [Problem requiring selection of appropriate approach]\n\n    ### **Problem-Solving Questions:**\n    5. [Numerical/algorithmic problem]\n    6. [Design/implementation scenario]\n\n    ---\n\n    **END OF NOTES**\n    "

/-- notes_llm.py line 319, the unit-scoped error document returned when the
final completion call raises. -/
def error_notes_doc (unit_title e : String) : String :=
  "# Error Generating Notes for " ++ unit_title ++ "\n\nTechnical error: " ++ e

/-- What one run of `generate_unit_notes` produces: its return value (or the
exception it propagates), plus — for specification purposes — the retriever
invocations it performed and the past-exam context string it built. -/
structure UnitNotesOutput where
  result : Except String String
  retrieval_calls : List RetrievalCall
  pyq_context : String

/-- notes_llm.py lines 83–319, `generate_unit_notes`.  The HyDE completion
call (line 97) is outside the `try`, so its exception propagates
(`Except.error`); the final completion call (lines 307–319) is inside the
`try`, so its exception is converted into the unit-scoped error document. -/
def generate_unit_notes (chat : ChatClient) (retrieve : Retriever)
    (unit_title unit_text : String) (subject : Option String)
    (use_pyq : Bool) (top_k : Nat) : UnitNotesOutput :=
  let subtopics := extract_subtopics unit_text
  match generate_hyde_document chat (hyde_seed unit_title subject unit_text) with
  | .error e => ⟨.error e, [], ""⟩
  | .ok hyde_doc =>
    let book_call : RetrievalCall := ⟨hyde_doc, subject, false, min top_k 25⟩
    let book_context := retrieve book_call
    let pc :=
      if use_pyq then
        let pyq_call : RetrievalCall := ⟨hyde_doc, subject, true, 5⟩
        let pyq_raw := retrieve pyq_call
        ("\nRELEVANT PAST EXAM QUESTIONS:\n" ++ pyq_raw ++ "\n", [book_call, pyq_call])
      else ("", [book_call])
    let book_context := truncate_context book_context 5000
    let subtopic_list_str := String.intercalate "\n" (subtopics.map (fun s => "- " ++ s))
    let user_prompt :=
      unit_user_prompt subject unit_title unit_text book_context pc.1 subtopic_list_str
    let res : Except String String :=
      match chat unit_system_prompt user_prompt with
      | .ok content => .ok content
      | .error e => .ok (error_notes_doc unit_title e)
    ⟨res, pc.2, pc.1⟩

/-! ### `generate_final_notes` (notes_llm.py lines 325–384). -/

/-- notes_llm.py line 358: `subject.upper() if subject else "SUBJECT NOTES"`
(Python truthiness: `None` and the empty string both take the default). -/
def subject_header_of (subject : Option String) : String :=
  match subject with
  | none => "SUBJECT NOTES"
  | some s => if s = "" then "SUBJECT NOTES" else s.toUpper

/-- The anchor slug of notes_llm.py line 370:
`title.lower().replace(' ', '-').replace(':', '')`. -/
def pySlug (t : String) : String :=
  (t.toLower.replace " " "-").replace ":" ""

/-- One table-of-contents line (notes_llm.py line 370). -/
def toc_line (u : SyllabusUnit) : String :=
  "- [" ++ u.unit_title ++ "](#" ++ pySlug u.unit_title ++ ")\n"

/-- notes_llm.py lines 360–367, the document header block. -/
def final_header (subject_header : String) : String :=
  "\n# " ++ subject_header
    ++ "\n**Comprehensive Study Notes & Exam Preparation**\n\n---\n\n## Table of Contents\n"

/-- notes_llm.py lines 377–382, the closing footer block. -/
def final_footer (subject_header : String) : String :=
  "\n\n\n---\n**End of Notes**\n*Generated by SyllabusGPT | " ++ subject_header ++ "*\n"

/-- notes_llm.py lines 357–384: the final document assembly, mirroring the
successive `final_markdown += …` steps (a fold over the units for the
dynamic table of contents). -/
def assemble_final_markdown (subject : Option String)
    (units : List SyllabusUnit) (all_unit_content : List String) : String :=
  let subject_header := subject_header_of subject
  let withToc := units.foldl (fun acc u => acc ++ toc_line u) (final_header subject_header)
  let withBody := (withToc ++ "\n---\n") ++ String.intercalate "\n\n" all_unit_content
  withBody ++ final_footer subject_header

/-- notes_llm.py lines 334–338: the unit list actually processed — the
splitter's output, or the `"Complete Syllabus"` fallback wrapping the raw
input when the splitter returned an empty list. -/
def effective_units (syllabus_text : String) : List SyllabusUnit :=
  let units := split_syllabus_into_units syllabus_text
  if units.isEmpty then [⟨"Complete Syllabus", syllabus_text⟩] else units

/-- notes_llm.py lines 325–384, `generate_final_notes`: generate every unit's
notes in order, then assemble.  An exception propagating out of a unit run
(i.e. out of its HyDE call) aborts the whole run. -/
def generate_final_notes (chat : ChatClient) (retrieve : Retriever)
    (syllabus_text : String) (subject : Option String)
    (use_pyq : Bool) (top_k : Nat) : Except String String :=
  let units := effective_units syllabus_text
  match units.mapM
      (fun u => (generate_unit_notes chat retrieve u.unit_title u.unit_text subject use_pyq top_k).result) with
  | .error e => .error e
  | .ok all_unit_content => .ok (assemble_final_markdown subject units all_unit_content)

/-! ## Helper lemmas -/

/-- `matchHeading` never matches the empty text. -/
lemma matchHeading_nil : matchHeading [] = none := rfl

/-- A no-match hypothesis only has to be checked below the text's length:
past the end the text is empty and nothing matches. -/
lemma matchHeading_none_of_bounded (cs : List Char)
    (h : ∀ n < cs.length, matchHeading (cs.drop n) = none) :
    ∀ n, matchHeading (cs.drop n) = none := by
  intro n
  by_cases hn : n < cs.length
  · exact h n hn
  · rw [List.drop_eq_nil_of_le (le_of_not_lt hn)]
    exact matchHeading_nil

/-- If no position of the text matches the heading pattern, the split leaves
the whole text as the part before the first match, with no pairs. -/
lemma reSplitUnitsF_no_match (fuel : Nat) :
    ∀ cs : List Char, cs.length ≤ fuel →
      (∀ n, matchHeading (cs.drop n) = none) →
      reSplitUnitsF fuel cs = (cs, []) := by
  induction fuel with
  | zero =>
    intro cs hfuel _
    have : cs = [] := List.length_eq_zero.mp (Nat.le_zero.mp hfuel)
    subst this
    rfl
  | succ fuel ih =>
    intro cs hfuel h
    cases cs with
    | nil => rfl
    | cons c rest =>
      have h0 : matchHeading (c :: rest) = none := by simpa using h 0
      have hrest : reSplitUnitsF fuel rest = (rest, []) := by
        refine ih rest (by simpa using Nat.lt_succ_iff.mp (Nat.lt_of_lt_of_le (by simp) hfuel)) ?_
        intro n
        simpa using h (n + 1)
      simp [reSplitUnitsF, h0, hrest]

/-- The splitter's one-unit fallback: if the heading pattern matches nowhere
in the normalized text, the whole (stripped, CR-replaced) text becomes the
body of a single `UNIT-I` unit (notes_llm.py lines 40–41). -/
lemma split_of_no_heading (s : String)
    (h : ∀ n, matchHeading ((normalizeSyllabus s).drop n) = none) :
    split_syllabus_into_units s = [⟨"UNIT-I", ⟨normalizeSyllabus s⟩⟩] := by
  have hsplit : reSplitUnits (normalizeSyllabus s) = (normalizeSyllabus s, []) :=
    reSplitUnitsF_no_match _ _ le_rfl h
  simp [split_syllabus_into_units, hsplit]

/-! ## Claim theorems -/

/-- C6: `_truncate_context` returns text of length `≤ max_chars` unchanged
(and is hence idempotent there); for longer text the result is exactly the
first `max_chars` characters followed by the literal truncation marker. -/
theorem truncate_context_spec (text : String) (m : Nat) :
    (text.length ≤ m →
      truncate_context text m = text ∧
      truncate_context (truncate_context text m) m = truncate_context text m) ∧
    (m < text.length →
      truncate_context text m = text.take m ++ truncation_marker) := by
  constructor
  · intro h
    have h1 : truncate_context text m = text := by simp [truncate_context, h]
    exact ⟨h1, by rw [h1, h1]⟩
  · intro h
    simp [truncate_context, Nat.not_le.mpr h]

/-- Witness for C6, at inputs exercising both branches. -/
theorem truncate_context_spec_witness :
    truncate_context "ab" 5 = "ab" ∧
    truncate_context "abcdef" 2 = "abcdef".take 2 ++ truncation_marker :=
  ⟨((truncate_context_spec "ab" 5).1 (by decide)).1,
   (truncate_context_spec "abcdef" 2).2 (by decide)⟩

/-- C2 (counterexample): on the input `"UNIT-1"` — a heading marker followed
by nothing — `split_syllabus_into_units` returns the empty list, refuting
"it never returns an empty sequence". -/
theorem split_counterexample_empty : split_syllabus_into_units "UNIT-1" = [] := by decide

/-- C2 (amended): for every input in which the heading pattern matches
nowhere — in particular pure whitespace — `split_syllabus_into_units`
returns a single-unit fallback: a non-empty sequence of exactly one unit.
(The function is total, so it never errors.) -/
theorem split_no_heading_nonempty (s : String)
    (h : ∀ n, matchHeading ((normalizeSyllabus s).drop n) = none) :
    split_syllabus_into_units s ≠ [] ∧ (split_syllabus_into_units s).length = 1 := by
  rw [split_of_no_heading s h]
  simp

/-- Witness for the amended C2, on a whitespace-only input. -/
theorem split_no_heading_nonempty_witness :
    split_syllabus_into_units "  \t\n " ≠ [] ∧
    (split_syllabus_into_units "  \t\n ").length = 1 :=
  split_no_heading_nonempty "  \t\n " (matchHeading_none_of_bounded _ (by decide))

/-- C4 (counterexample): `"a\rb"` contains no heading, yet the single
returned unit's body is `"a b"` — the input after carriage-return
replacement — which differs from the trimmed input `"a\rb"`. -/
theorem split_no_heading_cr_counterexample :
    (reSplitUnits (String.data "a\rb")).2 = [] ∧
    (reSplitUnits (normalizeSyllabus "a\rb")).2 = [] ∧
    split_syllabus_into_units "a\rb" = [⟨"UNIT-I", "a b"⟩] ∧
    pyStrip "a\rb" = "a\rb" ∧
    ("a b" : String) ≠ "a\rb" := by decide

/-- C4 (amended): for every input in which the heading pattern matches
nowhere, `split_syllabus_into_units` returns exactly one unit titled
`"UNIT-I"` whose body is the trimmed input after carriage returns have been
replaced by spaces (which is the trimmed input itself whenever the input
contains no carriage return). -/
theorem split_no_heading_spec (s : String)
    (h : ∀ n, matchHeading ((normalizeSyllabus s).drop n) = none) :
    split_syllabus_into_units s = [⟨"UNIT-I", ⟨normalizeSyllabus s⟩⟩] :=
  split_of_no_heading s h

/-- Stepping through the `range(start, len(parts)-1, 2)` loop over the
interleaved `[g1, t1, g2, t2, …]` parts: when every body is non-empty after
stripping, each (heading, body) pair yields exactly one unit, in order. -/
lemma unitsLoop_interleave (pairs : List (List Char × List Char))
    (h : ∀ p ∈ pairs, pyStripL p.2 ≠ []) :
    unitsLoop (pairs.foldr (fun p acc => p.1 :: p.2 :: acc) []) =
      pairs.map (fun p =>
        (⟨⟨(pyStripL p.1).filter (fun c => !(c = ':'))⟩, ⟨pyStripL p.2⟩⟩ : SyllabusUnit)) := by
  induction pairs with
  | nil => rfl
  | cons p rest ih =>
    have hp : (pyStripL p.2).isEmpty = false := by
      simpa using h p (by simp)
    simp [unitsLoop, hp, ih (fun q hq => h q (List.mem_cons_of_mem _ hq))]

/-- C3: for every syllabus text in which the heading scanner finds its
matches right at the start (only whitespace before the first heading) and
every heading's following text is non-empty after stripping, the splitter
returns exactly one unit per heading, in input order, with the stripped,
colon-free heading as title and the stripped following text as body — and
the concrete scenario from the spec. -/
theorem split_headed_units :
    (∀ (s : String) (pre : List Char) (pairs : List (List Char × List Char)),
      reSplitUnits (normalizeSyllabus s) = (pre, pairs) →
      pyStripL pre = [] →
      pairs ≠ [] →
      (∀ p ∈ pairs, pyStripL p.2 ≠ []) →
      split_syllabus_into_units s =
        pairs.map (fun p =>
          (⟨⟨(pyStripL p.1).filter (fun c => !(c = ':'))⟩, ⟨pyStripL p.2⟩⟩ : SyllabusUnit)) ∧
      (split_syllabus_into_units s).length = pairs.length) ∧
    split_syllabus_into_units "UNIT-1: Intro\nBasics. UNIT-2: Advanced\nDeep dive." =
      [⟨"UNIT-1", "Intro\nBasics."⟩, ⟨"UNIT-2", "Advanced\nDeep dive."⟩] := by
  constructor
  · intro s pre pairs hsplit hpre hne hbodies
    have hloop := unitsLoop_interleave pairs hbodies
    cases pairs with
    | nil => exact absurd rfl hne
    | cons p rest =>
      have key : split_syllabus_into_units s =
          unitsLoop ((p :: rest).foldr (fun q acc => q.1 :: q.2 :: acc) []) := by
        simp only [split_syllabus_into_units, hsplit]
        simp [hpre]
      rw [key, hloop]
      exact ⟨rfl, by simp⟩
  · decide

/-- Counterexample to C3 as stated: `"Preface UNIT-1: Basics"` contains one
well-formed heading followed by a non-empty body (third conjunct: the
scanner finds exactly that heading), yet the single returned unit is titled
`"Preface"` with body `"UNIT-1"` — not the heading title and its text. -/
theorem split_headed_units_counterexample :
    split_syllabus_into_units "Preface UNIT-1: Basics" = [⟨"Preface", "UNIT-1"⟩] ∧
    split_syllabus_into_units "Preface UNIT-1: Basics" ≠ [⟨"UNIT-1", "Basics"⟩] ∧
    (reSplitUnits (normalizeSyllabus "Preface UNIT-1: Basics")).2 =
      [("UNIT-1".data, "Basics".data)] := by decide

/-- Witness for C3, instantiating the general statement on the spec's
scenario input. -/
theorem split_headed_units_witness :
    split_syllabus_into_units "UNIT-1: Intro\nBasics. UNIT-2: Advanced\nDeep dive." =
      [⟨"UNIT-1", "Intro\nBasics."⟩, ⟨"UNIT-2", "Advanced\nDeep dive."⟩] ∧
    (split_syllabus_into_units "UNIT-1: Intro\nBasics. UNIT-2: Advanced\nDeep dive.").length = 2 := by
  have h := split_headed_units.1 "UNIT-1: Intro\nBasics. UNIT-2: Advanced\nDeep dive."
    [] [("UNIT-1".data, "Intro\nBasics. ".data), ("UNIT-2".data, "Advanced\nDeep dive.".data)]
    (by decide) rfl (by decide) (by decide)
  exact ⟨h.1.trans (by decide), h.2.trans (by decide)⟩

/-- Witness for the amended C4, on the spec's own scenario input. -/
theorem split_no_heading_spec_witness :
    split_syllabus_into_units "Just plain text, no headings." =
      [⟨"UNIT-I", "Just plain text, no headings."⟩] := by
  have h := split_no_heading_spec "Just plain text, no headings."
    (matchHeading_none_of_bounded _ (by decide))
  exact h.trans (by decide)

/-- String append is associative (on the underlying character lists). -/
lemma string_append_assoc (a b c : String) : a ++ b ++ c = a ++ (b ++ c) := by
  apply String.ext
  simp [String.data_append, List.append_assoc]

/-- C5 (counterexample): for the body `"---a----"`, `extract_subtopics`
returns the fragment `"a"`, whose length after trimming dashes, colons,
bullets and whitespace is 1 ≤ 3 — the length filter of the code runs on the
whitespace-stripped part before the bullet trim. -/
theorem extract_subtopics_counterexample :
    extract_subtopics "---a----" = ["a"] ∧
    (pyStripChars bulletTrimChars ("a").data).length ≤ 3 := by decide

/-- C5 (amended): `extract_subtopics` never returns duplicate entries, and
every returned fragment is the bullet/dash/colon/whitespace-trimmed form of
a delimiter-split part whose whitespace-trimmed length exceeds 3 (the length
after the full trim may be 3 or less). -/
theorem extract_subtopics_spec (s : String) :
    (extract_subtopics s).Nodup ∧
    ∀ t ∈ extract_subtopics s,
      ∃ p ∈ splitDelims (collapseWS s.data),
        3 < (pyStripL p).length ∧ t = ⟨pyStripChars bulletTrimChars p⟩ := by
  constructor
  · exact List.nodup_dedup _
  · intro t ht
    simp only [extract_subtopics, List.mem_dedup, List.mem_map, List.mem_filter] at ht
    obtain ⟨p, ⟨hpmem, hplen⟩, rfl⟩ := ht
    exact ⟨p, hpmem, by simpa using hplen, rfl⟩

/-- Witness for the amended C5, at a concrete returned fragment. -/
theorem extract_subtopics_spec_witness :
    (extract_subtopics "Stacks, queues").Nodup ∧
    ∃ p ∈ splitDelims (collapseWS ("Stacks, queues").data),
      3 < (pyStripL p).length ∧ ("Stacks" : String) = ⟨pyStripChars bulletTrimChars p⟩ :=
  ⟨(extract_subtopics_spec "Stacks, queues").1,
   (extract_subtopics_spec "Stacks, queues").2 "Stacks" (by decide)⟩

/-- A completion client that raises on every call. -/
def alwaysFailingChat : ChatClient := fun _ _ => .error "boom"

/-- A retriever that finds nothing, whatever the query. -/
def emptyRetriever : Retriever := fun _ => ""

/-- C1 (counterexample): with a completion collaborator that raises on every
call, the HyDE completion inside `generate_unit_notes` (notes_llm.py line
97, outside the `try`) raises first, and the exception propagates out of
`generate_unit_notes`: no string containing the unit title is returned. -/
theorem generate_unit_notes_counterexample :
    (generate_unit_notes alwaysFailingChat emptyRetriever "UNIT-1" "Sorting algorithms"
        none false 5).result = Except.error "boom" := rfl

/-- C1 (amended): if the HyDE completion succeeds and every completion call
bearing the notes system prompt raises, `generate_unit_notes` does not
raise: it returns the unit-scoped markdown error document, a string that
contains the unit's title together with the error text. -/
theorem generate_unit_notes_degrades (chat : ChatClient) (retrieve : Retriever)
    (unit_title unit_text : String) (subject : Option String) (use_pyq : Bool) (top_k : Nat)
    (d e : String)
    (h1 : generate_hyde_document chat (hyde_seed unit_title subject unit_text) = .ok d)
    (h2 : ∀ u, chat unit_system_prompt u = .error e) :
    (generate_unit_notes chat retrieve unit_title unit_text subject use_pyq top_k).result
      = .ok (error_notes_doc unit_title e) ∧
    ∃ a b, error_notes_doc unit_title e = a ++ unit_title ++ b := by
  constructor
  · simp only [generate_unit_notes, h1, h2]
  · exact ⟨"# Error Generating Notes for ", "\n\nTechnical error: " ++ e, by
      simp only [error_notes_doc, string_append_assoc]⟩

/-- A completion client that answers the HyDE prompt and raises on
everything else. -/
def hydeOnlyChat : ChatClient := fun sys _ =>
  if sys = hyde_system_prompt then .ok "HYDE DOC" else .error "boom"

/-- Witness for the amended C1. -/
theorem generate_unit_notes_degrades_witness :
    (generate_unit_notes hydeOnlyChat emptyRetriever "UNIT-7" "Graph theory"
        none false 5).result = .ok (error_notes_doc "UNIT-7" "boom") ∧
    ∃ a b, error_notes_doc "UNIT-7" "boom" = a ++ "UNIT-7" ++ b :=
  generate_unit_notes_degrades hydeOnlyChat emptyRetriever "UNIT-7" "Graph theory"
    none false 5 "HYDE DOC" "boom" rfl
    (fun _ => if_neg (by decide))

/-- C7: when the retriever answers the (HyDE-seeded) query with an empty or
whitespace-only block, `generate_notes_with_rag` does not fail: it issues
the uncontextualized fallback request — `generate_notes` on the explicit
"no context found" chunk — and, when that completion succeeds, still
produces a notes document. -/
theorem rag_empty_context_fallback (chat : ChatClient) (retrieve : Retriever)
    (syllabus_text : String) (subject : Option String) (use_pyq : Bool) (top_k : Nat)
    (d notes : String)
    (h1 : generate_hyde_document chat syllabus_text = .ok d)
    (h2 : pyStrip (retrieve ⟨d, subject, use_pyq, top_k⟩) = "")
    (h3 : chat rag_system_prompt (rag_user_prompt syllabus_text no_context_chunk) = .ok notes) :
    generate_notes_with_rag chat retrieve syllabus_text subject use_pyq top_k
      = generate_notes chat syllabus_text [no_context_chunk] ∧
    generate_notes_with_rag chat retrieve syllabus_text subject use_pyq top_k = .ok notes := by
  have hempty : (pyStrip (retrieve ⟨d, subject, use_pyq, top_k⟩)).isEmpty = true := by
    rw [h2]; rfl
  constructor
  · simp only [generate_notes_with_rag, h1, hempty, if_true]
  · simp only [generate_notes_with_rag, h1, hempty, if_true, generate_notes]
    exact h3

/-- A completion client that answers the HyDE prompt with a fixed document
and every other prompt with fixed notes. -/
def fallbackNotesChat : ChatClient := fun sys _ =>
  if sys = hyde_system_prompt then .ok "HYDE DOC" else .ok "NOTES"

/-- Witness for C7. -/
theorem rag_empty_context_fallback_witness :
    generate_notes_with_rag fallbackNotesChat emptyRetriever "Trees" none false 12
      = generate_notes fallbackNotesChat "Trees" [no_context_chunk] ∧
    generate_notes_with_rag fallbackNotesChat emptyRetriever "Trees" none false 12
      = .ok "NOTES" :=
  rag_empty_context_fallback fallbackNotesChat emptyRetriever "Trees" none false 12
    "HYDE DOC" "NOTES" rfl rfl (if_neg (by decide))

/-- C8: once the HyDE completion has produced document `d`,
`generate_unit_notes` with `use_pyq = true` queries the retriever exactly
twice — reference material with `min top_k 25` results, then past-exam
material with exactly 5 results — and with `use_pyq = false` exactly once
(the reference query), the past-exam context being the empty string. -/
theorem generate_unit_notes_retrieval (chat : ChatClient) (retrieve : Retriever)
    (unit_title unit_text : String) (subject : Option String) (top_k : Nat) (d : String)
    (h : generate_hyde_document chat (hyde_seed unit_title subject unit_text) = .ok d) :
    (generate_unit_notes chat retrieve unit_title unit_text subject true top_k).retrieval_calls
      = [⟨d, subject, false, min top_k 25⟩, ⟨d, subject, true, 5⟩] ∧
    (generate_unit_notes chat retrieve unit_title unit_text subject false top_k).retrieval_calls
      = [⟨d, subject, false, min top_k 25⟩] ∧
    (generate_unit_notes chat retrieve unit_title unit_text subject false top_k).pyq_context
      = "" := by
  refine ⟨?_, ?_, ?_⟩ <;> simp only [generate_unit_notes, h] <;> simp

/-- A completion client that answers every call with a fixed text. -/
def okChat : ChatClient := fun _ _ => .ok "TEXT"

/-- Witness for C8. -/
theorem generate_unit_notes_retrieval_witness :
    (generate_unit_notes okChat emptyRetriever "UNIT-1" "Sorting" (some "DSA") true 40).retrieval_calls
      = [⟨"TEXT", some "DSA", false, 25⟩, ⟨"TEXT", some "DSA", true, 5⟩] ∧
    (generate_unit_notes okChat emptyRetriever "UNIT-1" "Sorting" (some "DSA") false 40).retrieval_calls
      = [⟨"TEXT", some "DSA", false, 25⟩] ∧
    (generate_unit_notes okChat emptyRetriever "UNIT-1" "Sorting" (some "DSA") false 40).pyq_context
      = "" := by
  have h := generate_unit_notes_retrieval okChat emptyRetriever "UNIT-1" "Sorting"
    (some "DSA") 40 "TEXT" rfl
  exact ⟨h.1.trans (by decide), h.2.1.trans (by decide), h.2.2⟩

/-- Appending the empty string on the right is the identity. -/
lemma string_append_empty (a : String) : a ++ "" = a := by
  apply String.ext
  simp [String.data_append]

/-- Appending the empty string on the left is the identity. -/
lemma string_empty_append (a : String) : "" ++ a = a := by
  apply String.ext
  simp [String.data_append]

/-- Folding append over a list distributes over a prepended string. -/
lemma string_foldl_append (l : List String) :
    ∀ a b : String, l.foldl (· ++ ·) (a ++ b) = a ++ l.foldl (· ++ ·) b := by
  induction l with
  | nil => intro a b; rfl
  | cons x xs ih =>
    intro a b
    rw [List.foldl_cons, List.foldl_cons, string_append_assoc, ih]

/-- `String.join` unfolds one element at a time. -/
lemma string_join_cons (x : String) (xs : List String) :
    String.join (x :: xs) = x ++ String.join xs := by
  simp only [String.join, List.foldl_cons]
  calc xs.foldl (· ++ ·) ("" ++ x)
      = xs.foldl (· ++ ·) (x ++ "") := by rw [string_empty_append, string_append_empty]
    _ = x ++ xs.foldl (· ++ ·) "" := string_foldl_append xs x ""

/-- The `final_markdown += toc line` loop in closed form: the base text
followed by the joined table-of-contents lines, one per unit, in order. -/
lemma foldl_toc (units : List SyllabusUnit) :
    ∀ base : String, units.foldl (fun acc u => acc ++ toc_line u) base
      = base ++ String.join (units.map toc_line) := by
  induction units with
  | nil =>
    intro base
    rw [List.foldl_nil, List.map_nil]
    exact (string_append_empty base).symm
  | cons u rest ih =>
    intro base
    rw [List.foldl_cons, ih, List.map_cons, string_join_cons, string_append_assoc]

/-- C9: when every unit's generation succeeds, `generate_final_notes`
produces the header block, then the table of contents — exactly one line per
unit, in order, whose anchor slug lowercases the title, turns spaces into
hyphens and drops colons — then the separator, then all unit documents in
input order joined by blank lines, then the closing footer naming the
subject; with no subject the header placeholder is `"SUBJECT NOTES"`. -/
theorem generate_final_notes_assembly (chat : ChatClient) (retrieve : Retriever)
    (s : String) (subject : Option String) (use_pyq : Bool) (top_k : Nat)
    (contents : List String)
    (h : (effective_units s).mapM
        (fun u => (generate_unit_notes chat retrieve u.unit_title u.unit_text
          subject use_pyq top_k).result) = .ok contents) :
    generate_final_notes chat retrieve s subject use_pyq top_k
      = .ok (final_header (subject_header_of subject)
          ++ String.join ((effective_units s).map toc_line)
          ++ "\n---\n"
          ++ String.intercalate "\n\n" contents
          ++ final_footer (subject_header_of subject)) ∧
    ((effective_units s).map toc_line).length = (effective_units s).length ∧
    (∀ u : SyllabusUnit,
      toc_line u = "- [" ++ u.unit_title ++ "](#" ++ pySlug u.unit_title ++ ")\n") ∧
    subject_header_of none = "SUBJECT NOTES" := by
  refine ⟨?_, List.length_map _ _, fun u => rfl, rfl⟩
  simp only [generate_final_notes, h]
  congr 1
  simp only [assemble_final_markdown]
  rw [foldl_toc]

/-- Witness for C9. -/
theorem generate_final_notes_assembly_witness :
    generate_final_notes okChat emptyRetriever "hello syllabus" none false 40
      = .ok (final_header (subject_header_of none)
          ++ String.join ((effective_units "hello syllabus").map toc_line)
          ++ "\n---\n"
          ++ String.intercalate "\n\n" ["TEXT"]
          ++ final_footer (subject_header_of none)) ∧
    ((effective_units "hello syllabus").map toc_line).length
      = (effective_units "hello syllabus").length ∧
    (∀ u : SyllabusUnit,
      toc_line u = "- [" ++ u.unit_title ++ "](#" ++ pySlug u.unit_title ++ ")\n") ∧
    subject_header_of none = "SUBJECT NOTES" :=
  generate_final_notes_assembly okChat emptyRetriever "hello syllabus" none false 40
    ["TEXT"] rfl

/-- C10: whenever the splitter returns an empty list, `generate_final_notes`
processes the single fallback unit titled `"Complete Syllabus"` whose body
is the whole raw syllabus text — so the list of processed units (and hence
the table of contents) has exactly one entry; and for every input the
processed unit list is non-empty. -/
theorem effective_units_fallback :
    (∀ s : String, split_syllabus_into_units s = [] →
      effective_units s = [⟨"Complete Syllabus", s⟩] ∧
      ((effective_units s).map toc_line).length = 1) ∧
    ∀ s : String, effective_units s ≠ [] := by
  constructor
  · intro s h
    have he : effective_units s = [⟨"Complete Syllabus", s⟩] := by
      simp [effective_units, h]
    exact ⟨he, by rw [he]; rfl⟩
  · intro s
    cases hs : split_syllabus_into_units s with
    | nil => simp [effective_units, hs]
    | cons a t => simp [effective_units, hs]

/-- Witness for C10, at an input on which the splitter does return `[]`. -/
theorem effective_units_fallback_witness :
    effective_units "UNIT-1" = [⟨"Complete Syllabus", "UNIT-1"⟩] ∧
    ((effective_units "UNIT-1").map toc_line).length = 1 :=
  effective_units_fallback.1 "UNIT-1" (by decide)
